import Mathlib

/-!
Verification of the BiteBack backend (src/backend/server.js) against its
specification. The server is shallowly embedded: each Express handler and the
cron task become pure Lean functions from an explicit model of the request,
the upstream response, the store-write outcome and the current store contents
to an HTTP status (or log outcome) paired with the resulting store contents.
Timestamps are modelled as integers (the parsed value of the remote
timestamp); JavaScript string truthiness is modelled explicitly.
-/

namespace BiteBack

/-- The Mongoose `News` document shape (server.js lines 30-36): all text
fields optional (a Mongoose `String` field may be unset), `publishedAt` a
parsed timestamp modelled as an integer. -/
structure Article where
  title : Option String
  description : Option String
  url : Option String
  imageUrl : Option String
  publishedAt : Int
deriving DecidableEq, Repr

/-- One article as returned by the external news API: note the remote image
field is named `urlToImage`, and `publishedAt` is the parsed value of the
remote timestamp. -/
structure RemoteArticle where
  title : Option String
  description : Option String
  url : Option String
  urlToImage : Option String
  publishedAt : Int
deriving DecidableEq, Repr

/-- Outcome of the upstream `axios.get` call: a network/HTTP error (the
promise rejects), or a response whose `data.articles` field is either absent
(`none`, JS `undefined`) or a list of articles. -/
inductive FetchResult where
  | netError
  | ok (articles : Option (List RemoteArticle))
deriving DecidableEq, Repr

/-- Outcome of the `deleteMany` / `insertMany` pair against the store:
both succeed; `deleteMany` throws (store untouched); or `deleteMany`
succeeds and `insertMany` throws after `inserted` of the new documents were
written. -/
inductive WriteOutcome where
  | ok
  | deleteFail
  | insertFail (inserted : Nat)
deriving DecidableEq, Repr

/-- The per-article mapping of the manual trigger (server.js lines 85-91):
`imageUrl` is taken from the remote `urlToImage`, `publishedAt` from the
parsed remote timestamp. -/
def mapArticle (a : RemoteArticle) : Article :=
  { title := a.title
    description := a.description
    url := a.url
    imageUrl := a.urlToImage
    publishedAt := a.publishedAt }

/-- The per-article mapping duplicated in the cron task (server.js lines
116-122), embedded separately so that the equivalence of the two trigger
paths is a theorem, not an assumption. -/
def cronMapArticle (a : RemoteArticle) : Article :=
  { title := a.title
    description := a.description
    url := a.url
    imageUrl := a.urlToImage
    publishedAt := a.publishedAt }

/-- `GET /api/fetch-news` (server.js lines 74-101). Returns the HTTP status
and the store contents after the run. A rejected fetch or a thrown store
write is caught and reported as 500; a missing or empty `articles` field
returns 404 before any store access; otherwise every existing record is
deleted and the mapped articles inserted. -/
def fetchNewsHandler (resp : FetchResult) (w : WriteOutcome)
    (store : List Article) : Nat × List Article :=
  match resp with
  | .netError => (500, store)
  | .ok none => (404, store)
  | .ok (some arts) =>
    if arts.length = 0 then (404, store)
    else
      match w with
      | .ok => (200, arts.map mapArticle)
      | .deleteFail => (500, store)
      | .insertFail k => (500, (arts.map mapArticle).take k)

/-- Observable outcome of one run of the scheduled cron task: it logged
"No new articles found.", logged success, or logged an error. -/
inductive CronLog where
  | noArticles
  | success
  | errorLogged
deriving DecidableEq, Repr

/-- One run of the hourly cron task (server.js lines 104-131), embedded
independently of `fetchNewsHandler` from its own duplicated code. Returns
what was logged and the store contents after the run. -/
def cronHandler (resp : FetchResult) (w : WriteOutcome)
    (store : List Article) : CronLog × List Article :=
  match resp with
  | .netError => (.errorLogged, store)
  | .ok none => (.noArticles, store)
  | .ok (some arts) =>
    if arts.length = 0 then (.noArticles, store)
    else
      match w with
      | .ok => (.success, arts.map cronMapArticle)
      | .deleteFail => (.errorLogged, store)
      | .insertFail k => (.errorLogged, (arts.map cronMapArticle).take k)

/-- How the manual trigger's HTTP status is reported on the cron path. -/
def logOfStatus : Nat → CronLog
  | 200 => .success
  | 404 => .noArticles
  | _ => .errorLogged

/-- The sort order requested by `News.find().sort(\x7b publishedAt: -1 \x7d)`
(server.js line 66): descending `publishedAt`, i.e. the later record comes
no later than the earlier one. -/
def newsDesc (a b : Article) : Prop := b.publishedAt ≤ a.publishedAt

instance : DecidableRel newsDesc :=
  fun a b => inferInstanceAs (Decidable (b.publishedAt ≤ a.publishedAt))

instance : IsTotal Article newsDesc :=
  ⟨fun a b => le_total b.publishedAt a.publishedAt⟩

instance : IsTrans Article newsDesc :=
  ⟨fun _ _ _ h1 h2 => le_trans h2 h1⟩

/-- `GET /api/news` (server.js lines 64-71): on a successful store read,
200 with the stored articles sorted by `publishedAt` descending; if the
read throws, 500 with no body of articles. -/
def getNewsHandler (readOk : Bool) (store : List Article) :
    Nat × Option (List Article) :=
  if readOk then (200, some (List.insertionSort newsDesc store))
  else (500, none)

/-- JavaScript truthiness of a possibly-absent string: `undefined` and the
empty string are falsy. -/
def truthy : Option String → Bool
  | none => false
  | some s => if s = "" then false else true

/-- JavaScript `String.prototype.split(" ")` on the character list of a
string: splits at every single space, keeping empty pieces, and yields one
empty piece for the empty string (as JS does). -/
def splitOnSpaceChars : List Char → List (List Char)
  | [] => [[]]
  | c :: rest =>
    match splitOnSpaceChars rest with
    | [] => [[c]]
    | w :: ws => if c = ' ' then [] :: w :: ws else (c :: w) :: ws

/-- JavaScript `header.split(" ")` as a list of strings. -/
def jsSplitHeader (h : String) : List String :=
  (splitOnSpaceChars h.data).map (fun cs => String.mk cs)

/-- The token extraction of `verifyToken` (server.js line 52),
`req.headers.authorization?.split(" ")[1]` combined with the `if (!token)`
falsiness check (line 53): `none` exactly when the middleware answers 401
(header absent, fewer than two space-separated pieces, or an empty second
piece, which is falsy in JS). -/
def jsToken (authHeader : Option String) : Option String :=
  match authHeader with
  | none => none
  | some h =>
    match (jsSplitHeader h).get? 1 with
    | none => none
    | some t => if t = "" then none else some t

/-- The request body of `POST /api/news` as destructured on server.js line
136: each field may be absent. -/
structure NewsBody where
  title : Option String
  description : Option String
  url : Option String
  imageUrl : Option String
deriving DecidableEq, Repr

/-- `POST /api/news` behind the `verifyToken` middleware (server.js lines
50-61 and 134-144). `verify` models `admin.auth().verifyIdToken`: `some`
a decoded identity, `none` a rejection. A missing/empty token is rejected
401 and a failed verification 403, in both cases before the handler body
runs; otherwise a single record is built from the body with `publishedAt`
set to the current time `now` and saved (500 if the save throws). -/
def postNewsHandler (authHeader : Option String) (verify : String → Option String)
    (body : NewsBody) (saveOk : Bool) (now : Int)
    (store : List Article) : Nat × List Article :=
  match jsToken authHeader with
  | none => (401, store)
  | some tok =>
    match verify tok with
    | none => (403, store)
    | some _ =>
      if saveOk then
        (201, store ++ [{ title := body.title
                          description := body.description
                          url := body.url
                          imageUrl := body.imageUrl
                          publishedAt := now }])
      else (500, store)

/-- `POST /send-message` (server.js lines 147-168). Returns the HTTP status
and how many times the mail relay (`transporter.sendMail`) was invoked: if
any of the three fields is absent or empty, 400 with no relay call;
otherwise exactly one relay call, 200 on success and 500 if it throws. -/
def sendMessageHandler (name email message : Option String)
    (relayOk : Bool) : Nat × Nat :=
  if !truthy name || !truthy email || !truthy message then (400, 0)
  else if relayOk then (200, 1) else (500, 1)

/-- A concrete remote article used by witnesses. -/
def sampleRemote : RemoteArticle :=
  { title := some "t", description := some "d", url := some "u",
    urlToImage := some "i", publishedAt := 3 }

/-- A concrete pre-existing store used by witnesses. -/
def sampleStore : List Article :=
  [{ title := some "old", description := none, url := none,
     imageUrl := none, publishedAt := 1 }]

end BiteBack

namespace BiteBack

/-- C1: for every sync run (manual or scheduled) whose upstream response
holds a nonempty article list and whose store writes succeed, the store
afterwards is exactly the mapped articles — as many records as the upstream
returned, each with title/description/url taken over, `imageUrl` from the
remote `urlToImage` and `publishedAt` from the parsed remote timestamp —
and none of the prior records survive. -/
theorem sync_full_replace (arts : List RemoteArticle) (store cstore : List Article)
    (h : arts ≠ []) :
    fetchNewsHandler (.ok (some arts)) .ok store = (200, arts.map mapArticle) ∧
    cronHandler (.ok (some arts)) .ok cstore = (.success, arts.map mapArticle) ∧
    (arts.map mapArticle).length = arts.length ∧
    ∀ r : RemoteArticle, mapArticle r =
      { title := r.title, description := r.description, url := r.url,
        imageUrl := r.urlToImage, publishedAt := r.publishedAt } := by
  cases arts with
  | nil => exact absurd rfl h
  | cons a l => exact ⟨rfl, rfl, by simp, fun r => rfl⟩

/-- Witness for `sync_full_replace` at a one-article upstream response and a
nonempty prior store. -/
theorem sync_full_replace_witness :
    fetchNewsHandler (.ok (some [sampleRemote])) .ok sampleStore =
      (200, [sampleRemote].map mapArticle) ∧
    cronHandler (.ok (some [sampleRemote])) .ok sampleStore =
      (.success, [sampleRemote].map mapArticle) ∧
    ([sampleRemote].map mapArticle).length = [sampleRemote].length ∧
    ∀ r : RemoteArticle, mapArticle r =
      { title := r.title, description := r.description, url := r.url,
        imageUrl := r.urlToImage, publishedAt := r.publishedAt } :=
  sync_full_replace [sampleRemote] sampleStore sampleStore (by decide)

/-- C2: a sync run whose upstream response holds zero articles leaves the
store untouched whatever the write layer would have done: the manual
trigger answers 404 and the cron run merely logs that no articles were
found. -/
theorem empty_sync_noop (w : WriteOutcome) (store cstore : List Article) :
    fetchNewsHandler (.ok (some [])) w store = (404, store) ∧
    cronHandler (.ok (some [])) w cstore = (.noArticles, cstore) :=
  ⟨rfl, rfl⟩

/-- C3 counterexample: a response lacking an `articles` list is answered
with 404 ("No news found"), not with the 500 the claim asserts, because
`!response.data.articles` takes the no-news branch before any error can be
thrown. -/
theorem missing_articles_gives_404 :
    (fetchNewsHandler (.ok none) .ok sampleStore).1 = 404 ∧
    ¬(fetchNewsHandler (.ok none) .ok sampleStore).1 = 500 :=
  ⟨rfl, by decide⟩

/-- C3 amended: a manual sync run that fails by network error or store
write failure returns 500 (with the store untouched on a fetch or delete
failure), while a response lacking an `articles` list is treated as an
empty result and returns 404; the cron path only logs an error on those
same failures and takes no corrective store action, ending in the same
store state as the manual path. -/
theorem sync_failures (arts : List RemoteArticle) (w : WriteOutcome) (k : Nat)
    (store cstore : List Article) (h : arts ≠ []) :
    fetchNewsHandler .netError w store = (500, store) ∧
    cronHandler .netError w cstore = (.errorLogged, cstore) ∧
    fetchNewsHandler (.ok none) w store = (404, store) ∧
    fetchNewsHandler (.ok (some arts)) .deleteFail store = (500, store) ∧
    (fetchNewsHandler (.ok (some arts)) (.insertFail k) store).1 = 500 ∧
    cronHandler (.ok (some arts)) .deleteFail store = (.errorLogged, store) ∧
    (cronHandler (.ok (some arts)) (.insertFail k) store).1 = .errorLogged ∧
    (cronHandler (.ok (some arts)) (.insertFail k) store).2 =
      (fetchNewsHandler (.ok (some arts)) (.insertFail k) store).2 := by
  cases arts with
  | nil => exact absurd rfl h
  | cons a l => exact ⟨rfl, rfl, rfl, rfl, rfl, rfl, rfl, rfl⟩

/-- Witness for `sync_failures` at a one-article upstream response. -/
theorem sync_failures_witness :
    fetchNewsHandler .netError .ok sampleStore = (500, sampleStore) ∧
    cronHandler .netError .ok sampleStore = (.errorLogged, sampleStore) ∧
    fetchNewsHandler (.ok none) .ok sampleStore = (404, sampleStore) ∧
    fetchNewsHandler (.ok (some [sampleRemote])) .deleteFail sampleStore =
      (500, sampleStore) ∧
    (fetchNewsHandler (.ok (some [sampleRemote])) (.insertFail 0) sampleStore).1 = 500 ∧
    cronHandler (.ok (some [sampleRemote])) .deleteFail sampleStore =
      (.errorLogged, sampleStore) ∧
    (cronHandler (.ok (some [sampleRemote])) (.insertFail 0) sampleStore).1 =
      .errorLogged ∧
    (cronHandler (.ok (some [sampleRemote])) (.insertFail 0) sampleStore).2 =
      (fetchNewsHandler (.ok (some [sampleRemote])) (.insertFail 0) sampleStore).2 :=
  sync_failures [sampleRemote] .ok 0 sampleStore sampleStore (by decide)

/-- C4: the manual HTTP trigger and the cron trigger are behaviorally
identical up to reporting: for every upstream response, write outcome and
prior store, the cron run ends in exactly the store state of the manual run
and logs exactly the translation of the manual run's HTTP status
(200 to success, 404 to no-articles, 500 to an error log). -/
theorem trigger_paths_equivalent (resp : FetchResult) (w : WriteOutcome)
    (store : List Article) :
    cronHandler resp w store =
      (logOfStatus (fetchNewsHandler resp w store).1,
        (fetchNewsHandler resp w store).2) := by
  cases resp with
  | netError => rfl
  | ok oarts =>
    cases oarts with
    | none => rfl
    | some arts =>
      cases arts with
      | nil => rfl
      | cons a l => cases w <;> rfl

/-- C5: the read endpoint answers 200 with a permutation of the stored
records sorted by `publishedAt` descending (for every store state), and
500 with no articles when the store read fails. -/
theorem getNews_sorted_desc (store : List Article) :
    (getNewsHandler true store).1 = 200 ∧
    (∃ l, (getNewsHandler true store).2 = some l ∧
      l.Perm store ∧ l.Sorted newsDesc) ∧
    getNewsHandler false store = (500, none) :=
  ⟨rfl,
    ⟨List.insertionSort newsDesc store, rfl,
      List.perm_insertionSort newsDesc store,
      List.sorted_insertionSort newsDesc store⟩,
    rfl⟩

/-- C6: a `POST /api/news` request carrying no (or a falsy) bearer token is
answered 401, and one whose token fails verification is answered 403; in
both cases the store is unchanged, so the protected handler never ran. -/
theorem auth_gate_rejects (authHeader : Option String)
    (verify : String → Option String) (body : NewsBody) (saveOk : Bool)
    (now : Int) (store : List Article) :
    (jsToken authHeader = none →
      postNewsHandler authHeader verify body saveOk now store = (401, store)) ∧
    ∀ tok, jsToken authHeader = some tok → verify tok = none →
      postNewsHandler authHeader verify body saveOk now store = (403, store) := by
  constructor
  · intro h
    simp [postNewsHandler, h]
  · intro tok h1 h2
    simp [postNewsHandler, h1, h2]

/-- Witness for `auth_gate_rejects`: a missing header is answered 401 and a
well-formed header whose token the verifier rejects is answered 403, the
store unchanged both times. -/
theorem auth_gate_rejects_witness :
    postNewsHandler none (fun _ => none)
      { title := none, description := none, url := none, imageUrl := none }
      true 0 sampleStore = (401, sampleStore) ∧
    postNewsHandler (some "Bearer bad") (fun _ => none)
      { title := none, description := none, url := none, imageUrl := none }
      true 0 sampleStore = (403, sampleStore) :=
  ⟨(auth_gate_rejects none (fun _ => none)
      { title := none, description := none, url := none, imageUrl := none }
      true 0 sampleStore).1 rfl,
    (auth_gate_rejects (some "Bearer bad") (fun _ => none)
      { title := none, description := none, url := none, imageUrl := none }
      true 0 sampleStore).2 "bad" (by decide) rfl⟩

/-- C7: the contact-form endpoint answers 400 without invoking the mail
relay whenever any of name, email or message is absent or empty; with all
three present the relay is invoked exactly once, and its failure is
surfaced as 500 (success as 200). -/
theorem sendMessage_validation (name email message : Option String)
    (relayOk : Bool) :
    ((truthy name = false ∨ truthy email = false ∨ truthy message = false) →
      sendMessageHandler name email message relayOk = (400, 0)) ∧
    (truthy name = true → truthy email = true → truthy message = true →
      (sendMessageHandler name email message relayOk).2 = 1 ∧
      (relayOk = true →
        (sendMessageHandler name email message relayOk).1 = 200) ∧
      (relayOk = false →
        (sendMessageHandler name email message relayOk).1 = 500)) := by
  constructor
  · intro h
    rcases h with h | h | h <;> simp [sendMessageHandler, h]
  · intro h1 h2 h3
    cases relayOk <;> simp [sendMessageHandler, h1, h2, h3]

/-- Witness for `sendMessage_validation`: an absent name is rejected 400
with no relay call, and a complete submission whose relay send fails makes
exactly one relay call and is answered 500. -/
theorem sendMessage_validation_witness :
    sendMessageHandler none (some "e") (some "m") true = (400, 0) ∧
    (sendMessageHandler (some "n") (some "e") (some "m") false).2 = 1 ∧
    (sendMessageHandler (some "n") (some "e") (some "m") false).1 = 500 := by
  refine ⟨(sendMessage_validation none (some "e") (some "m") true).1
      (Or.inl rfl), ?_, ?_⟩
  · exact ((sendMessage_validation (some "n") (some "e") (some "m") false).2
      (by decide) (by decide) (by decide)).1
  · exact ((sendMessage_validation (some "n") (some "e") (some "m") false).2
      (by decide) (by decide) (by decide)).2.2 rfl

/-- C8: an authenticated `POST /api/news` whose save succeeds creates
exactly one record — the store grows by one — whose four text fields come
from the request body and whose `publishedAt` is the current time, and
answers 201. -/
theorem postNews_creates_one (authHeader : Option String)
    (verify : String → Option String) (tok uid : String) (body : NewsBody)
    (now : Int) (store : List Article) (h1 : jsToken authHeader = some tok)
    (h2 : verify tok = some uid) :
    postNewsHandler authHeader verify body true now store =
      (201, store ++ [{ title := body.title, description := body.description,
                        url := body.url, imageUrl := body.imageUrl,
                        publishedAt := now }]) ∧
    (postNewsHandler authHeader verify body true now store).2.length =
      store.length + 1 := by
  constructor
  · simp [postNewsHandler, h1, h2]
  · simp [postNewsHandler, h1, h2]

/-- Witness for `postNews_creates_one` at a concrete token, body and store. -/
theorem postNews_creates_one_witness :
    postNewsHandler (some "Bearer tok") (fun _ => some "uid")
      { title := some "t", description := some "d", url := some "u",
        imageUrl := some "i" } true 7 sampleStore =
      (201, sampleStore ++
        [{ title := some "t", description := some "d", url := some "u",
           imageUrl := some "i", publishedAt := 7 }]) ∧
    (postNewsHandler (some "Bearer tok") (fun _ => some "uid")
      { title := some "t", description := some "d", url := some "u",
        imageUrl := some "i" } true 7 sampleStore).2.length =
      sampleStore.length + 1 :=
  postNews_creates_one (some "Bearer tok") (fun _ => some "uid") "tok" "uid"
    { title := some "t", description := some "d", url := some "u",
      imageUrl := some "i" } 7 sampleStore (by decide) rfl

/-- C9: a failed sync run is not atomic: when the upstream returned
articles, the delete succeeded and the insert then failed, the manual
trigger reports 500 yet any record that was in the store before the run
and is not among the new mapped articles is gone — the store is not
restored on error. -/
theorem failed_sync_loses_data (arts : List RemoteArticle)
    (store : List Article) (prior : Article) (k : Nat) (h : arts ≠ [])
    (hp : prior ∈ store) (hnot : prior ∉ arts.map mapArticle) :
    (fetchNewsHandler (.ok (some arts)) (.insertFail k) store).1 = 500 ∧
    prior ∉ (fetchNewsHandler (.ok (some arts)) (.insertFail k) store).2 := by
  cases arts with
  | nil => exact absurd rfl h
  | cons a l =>
    refine ⟨rfl, fun hmem => hnot ?_⟩
    exact List.mem_of_mem_take hmem

/-- Witness for `failed_sync_loses_data`: the insert fails after zero
documents and the pre-existing record is gone despite the 500 answer. -/
theorem failed_sync_loses_data_witness :
    (fetchNewsHandler (.ok (some [sampleRemote])) (.insertFail 0)
      sampleStore).1 = 500 ∧
    { title := some "old", description := none, url := none,
      imageUrl := none, publishedAt := 1 : Article } ∉
      (fetchNewsHandler (.ok (some [sampleRemote])) (.insertFail 0)
        sampleStore).2 :=
  failed_sync_loses_data [sampleRemote] sampleStore
    { title := some "old", description := none, url := none,
      imageUrl := none, publishedAt := 1 } 0
    (by decide) (by decide) (by decide)

/-- C10: the protected create endpoint validates nothing about the body:
for every request bearing a token the verifier accepts — even one in which
any or all of the four text fields are absent — it answers 201 and stores
one record carrying exactly the body's fields (absent ones left unset) with
`publishedAt` set to the current time. -/
theorem postNews_no_validation (authHeader : Option String)
    (verify : String → Option String) (tok uid : String) (now : Int)
    (store : List Article) (h1 : jsToken authHeader = some tok)
    (h2 : verify tok = some uid) :
    (∀ body : NewsBody,
      postNewsHandler authHeader verify body true now store =
        (201, store ++ [{ title := body.title,
                          description := body.description, url := body.url,
                          imageUrl := body.imageUrl,
                          publishedAt := now }])) ∧
    postNewsHandler authHeader verify
        { title := none, description := none, url := none, imageUrl := none }
        true now store =
      (201, store ++ [{ title := none, description := none, url := none,
                        imageUrl := none, publishedAt := now }]) := by
  constructor
  · intro body
    simp [postNewsHandler, h1, h2]
  · simp [postNewsHandler, h1, h2]

/-- Witness for `postNews_no_validation` at a concrete token and an
entirely empty body. -/
theorem postNews_no_validation_witness :
    postNewsHandler (some "Bearer tok") (fun _ => some "uid")
      { title := none, description := none, url := none, imageUrl := none }
      true 7 sampleStore =
      (201, sampleStore ++
        [{ title := none, description := none, url := none,
           imageUrl := none, publishedAt := 7 }]) :=
  (postNews_no_validation (some "Bearer tok") (fun _ => some "uid") "tok"
    "uid" 7 sampleStore (by decide) rfl).2

end BiteBack
